import Mathlib

/-!
Shallow embedding of the frogbot lobby state machine.

JavaScript objects keyed by Discord snowflake ids are modelled as
association lists in insertion order (snowflake keys exceed 2^32 - 1, so
the runtime keeps them in insertion order); optional record fields are
Option, matching the JSON round trip through the store, and JS truthiness
of those fields is modelled explicitly.
-/

set_option maxRecDepth 4000

namespace Frogbot

/-- One settings configuration offered to voters
(entries of `SETTINGS_BY_PLAYER_COUNT` in `src/utils/utils.js`). -/
structure Setting where
  settingid : String
  mapName : String
  gametype : String
  cards : String
  link : String
deriving DecidableEq, Repr

/-- A lobby record as stored in Redis (JSON round-tripped). -/
structure Game where
  gameThreadId : String
  playerCount : Nat
  eloRequirement : Nat
  players : List String
  settingsOptions : List Setting
  settingsVotes : List (String × Setting)
  selectedSettingId : Option String
  winnerVotes : List (String × String)
  winner : Option String
  createdAt : Nat
  filledAt : Option Nat
  completedAt : Option Nat
deriving DecidableEq, Repr

namespace JsObj

/-- JS property read `obj[k]`: first entry with the key, if any. -/
def get : List (String × α) → String → Option α
  | [], _ => none
  | (k', v') :: rest, k => if k' = k then some v' else get rest k

/-- JS property write `obj[k] = v`: update in place when the key exists
(keeping its insertion position), otherwise append at the end. -/
def set (m : List (String × α)) (k : String) (v : α) : List (String × α) :=
  match m with
  | [] => [(k, v)]
  | (k', v') :: rest =>
      if k' = k then (k, v) :: rest else (k', v') :: set rest k v

/-- JS `delete obj[k]`. -/
def del (m : List (String × α)) (k : String) : List (String × α) :=
  m.filter (fun e => ¬ e.1 = k)

/-- `Object.values(obj)` (insertion order). -/
def values (m : List (String × α)) : List α := m.map (fun e => e.2)

/-- `Object.keys(obj)` (insertion order). -/
def keys (m : List (String × α)) : List String := m.map (fun e => e.1)

end JsObj

/-- JS truthiness of an optional string field (empty string is falsy). -/
def truthyStr : Option String → Bool
  | none => false
  | some s => s ≠ ""

/-- JS truthiness of an optional numeric field (0 is falsy). -/
def truthyNat : Option Nat → Bool
  | none => false
  | some n => n ≠ 0

/-- `VOTE_VALUES.NOT_PLAYED` from `src/constants.js`. -/
def notPlayedVote : String := "not_played"

/-- `NOT_PLAYED_VOTE_THRESHOLD` from `src/constants.js`. -/
def notPlayedVoteThreshold : Nat := 2

/-- `REQUIRED_VOTES_BY_PLAYER_COUNT` from `src/constants.js`
(an object lookup: `undefined` outside the listed keys). -/
def requiredVotesByPlayerCount (playerCount : Nat) : Option Nat :=
  if playerCount = 4 then some 3
  else if playerCount = 5 then some 3
  else if playerCount = 6 then some 4
  else none

/-- Loop body of `determineWinner` in `src/commands/winner-selection.js`:
`voteCounts` is the running-tally object. -/
def determineWinnerAux (counts : String → Nat) :
    List String → Nat → Option String
  | [], _ => none
  | v :: rest, req =>
      let c := counts v + 1
      if req ≤ c then some v
      else determineWinnerAux (fun w => if w = v then c else counts w) rest req

/-- `determineWinner(votes, requiredToWinCount)` from
`src/commands/winner-selection.js`. -/
def determineWinner (votes : List String) (req : Nat) : Option String :=
  determineWinnerAux (fun _ => 0) votes req

/-- The spec's wording of the tally rule: scanning the votes in the order
they were cast, the first candidate whose vote count among the votes
scanned so far reaches `req` is the winner; `scanned` is the prefix already
processed. -/
def winnerScanSpec (scanned : List String) :
    List String → Nat → Option String
  | [], _ => none
  | v :: rest, req =>
      if req ≤ (scanned ++ [v]).count v then some v
      else winnerScanSpec (scanned ++ [v]) rest req

/-- Number of recorded `"not_played"` winner votes. -/
def countNotPlayed (m : List (String × String)) : Nat :=
  ((JsObj.values m).filter (fun v => v = notPlayedVote)).length

/-- How a `WinnerSelection` call ends. -/
inductive WinnerOutcome where
  /-- `game.winner` already truthy: the call returns `false` untouched. -/
  | alreadyDecided
  /-- ≥ 2 "not played" votes: game ended without recording a winner. -/
  | notPlayedNoResult
  /-- All votes cast and nobody reached the required count. -/
  | noMajority
  /-- Winner committed after a successful report to FriendsOfRisk. -/
  | winnerReported (w : String)
  /-- A winner was determined but the report call failed (`!response.ok`):
  the call returns `false` with the winner not committed. -/
  | reportFailed (w : String)
  /-- Still waiting for more votes. -/
  | awaiting
deriving DecidableEq, Repr

/-- Result of one `WinnerSelection` call: the stored game afterwards, the
boolean the function returns, how many times `addGameToFriendsOfRisk`
(the external `addgame` report) was invoked during the call, and the
outcome. -/
structure WinnerStep where
  game : Game
  accepted : Bool
  reportCalls : Nat
  outcome : WinnerOutcome
deriving DecidableEq, Repr

/-- Tally-and-resolve part of `WinnerSelection`
(`src/commands/winner-selection.js`, after the vote is recorded and the
game saved); `reportOk` is whether the external report call succeeds. -/
def winnerResolve (g1 : Game) (reportOk : Bool) : WinnerStep :=
  let voteCount := (JsObj.keys g1.winnerVotes).length
  if notPlayedVoteThreshold ≤ countNotPlayed g1.winnerVotes then
    ⟨g1, true, 0, .notPlayedNoResult⟩
  else
    match requiredVotesByPlayerCount g1.playerCount with
    | some req =>
        if req ≤ voteCount then
          let playerVotes :=
            (JsObj.values g1.winnerVotes).filter (fun v => ¬ v = notPlayedVote)
          match determineWinner playerVotes req with
          | none =>
              if voteCount = g1.playerCount then ⟨g1, true, 0, .noMajority⟩
              else ⟨g1, true, 0, .awaiting⟩
          | some w =>
              if reportOk then
                ⟨{ g1 with winner := some w }, true, 1, .winnerReported w⟩
              else ⟨g1, false, 1, .reportFailed w⟩
        else ⟨g1, true, 0, .awaiting⟩
    | none => ⟨g1, true, 0, .awaiting⟩

/-- `WinnerSelection(gameId, playerId, winnerId)` from
`src/commands/winner-selection.js` as a pure step on the stored game:
rejects when `game.winner` is truthy, otherwise records
`game.winnerVotes[playerId] = winnerId` and resolves. -/
def winnerSelection (game : Game) (playerId winnerId : String)
    (reportOk : Bool) : WinnerStep :=
  if truthyStr game.winner then ⟨game, false, 0, .alreadyDecided⟩
  else
    winnerResolve
      { game with winnerVotes := JsObj.set game.winnerVotes playerId winnerId }
      reportOk

namespace JsObj

@[simp] theorem keys_nil : keys ([] : List (String × α)) = [] := rfl

@[simp] theorem keys_cons (e : String × α) (m : List (String × α)) :
    keys (e :: m) = e.1 :: keys m := rfl

@[simp] theorem values_nil : values ([] : List (String × α)) = [] := rfl

@[simp] theorem values_cons (e : String × α) (m : List (String × α)) :
    values (e :: m) = e.2 :: values m := rfl

theorem get_set_self (m : List (String × α)) (k : String) (v : α) :
    get (set m k v) k = some v := by
  induction m with
  | nil => simp [set, get]
  | cons e rest ih =>
      obtain ⟨k', v'⟩ := e
      by_cases h : k' = k
      · subst h; simp [set, get]
      · simp [set, get, h, ih]

theorem keys_set_of_get_some (m : List (String × α)) (k : String) (v w : α)
    (h : get m k = some v) : keys (set m k w) = keys m := by
  induction m with
  | nil => simp [get] at h
  | cons e rest ih =>
      obtain ⟨k', v'⟩ := e
      by_cases hk : k' = k
      · subst hk; simp [set]
      · simp [get, hk] at h
        simp [set, hk, ih h]

theorem keys_set_of_get_none (m : List (String × α)) (k : String) (v : α)
    (h : get m k = none) : keys (set m k v) = keys m ++ [k] := by
  induction m with
  | nil => simp [set]
  | cons e rest ih =>
      obtain ⟨k', v'⟩ := e
      by_cases hk : k' = k
      · subst hk; simp [get] at h
      · simp [get, hk] at h
        simp [set, hk, ih h]

theorem length_set_of_get_some (m : List (String × α)) (k : String) (v w : α)
    (h : get m k = some v) : (set m k w).length = m.length := by
  have := keys_set_of_get_some m k v w h
  have h1 : (keys (set m k w)).length = (keys m).length := by rw [this]
  simpa [keys] using h1

theorem length_set_of_get_none (m : List (String × α)) (k : String) (v : α)
    (h : get m k = none) : (set m k v).length = m.length + 1 := by
  have := keys_set_of_get_none m k v h
  have h1 : (keys (set m k v)).length = (keys m ++ [k]).length := by rw [this]
  simpa [keys] using h1

theorem get_mem_values (m : List (String × α)) (k : String) (v : α)
    (h : get m k = some v) : v ∈ values m := by
  induction m with
  | nil => simp [get] at h
  | cons e rest ih =>
      obtain ⟨k', v'⟩ := e
      by_cases hk : k' = k
      · subst hk; simp [get] at h; simp [values, h]
      · simp [get, hk] at h
        simp [values] at ih ⊢
        exact Or.inr (by simpa [values] using ih h)

theorem mem_values_set (m : List (String × α)) (k : String) (v x : α)
    (h : x ∈ values (set m k v)) : x = v ∨ x ∈ values m := by
  induction m with
  | nil => simpa [set, values] using h
  | cons e rest ih =>
      obtain ⟨k', v'⟩ := e
      by_cases hk : k' = k
      · subst hk
        simp [set, values] at h
        rcases h with h | h
        · exact Or.inl h
        · exact Or.inr (by simp [values, h])
      · simp [set, values, hk] at h
        rcases h with h | h
        · exact Or.inr (by simp [values, h])
        · rcases ih (by simpa [values] using h) with h' | h'
          · exact Or.inl h'
          · exact Or.inr (by simp [values]; exact Or.inr (by simpa [values] using h'))

end JsObj

theorem determineWinnerAux_eq_scan :
    ∀ (votes : List String) (req : Nat) (pre : List String)
      (counts : String → Nat),
      (∀ v, counts v = pre.count v) →
      determineWinnerAux counts votes req = winnerScanSpec pre votes req
  | [], _, _, _, _ => rfl
  | v :: rest, req, pre, counts, h => by
      have hcount : (pre ++ [v]).count v = counts v + 1 := by
        simp [List.count_append, h v]
      simp only [determineWinnerAux, winnerScanSpec, hcount]
      by_cases hreq : req ≤ counts v + 1
      · simp [hreq]
      · simp only [if_neg hreq]
        exact determineWinnerAux_eq_scan rest req (pre ++ [v]) _ (by
          intro w
          by_cases hw : w = v
          · subst hw; simp [List.count_append, h w]
          · simp [hw, List.count_append, h w, List.count_singleton'])

/-- C1: for the supported player counts the winner threshold lookup is
4→3, 5→3, 6→4 (each equal to ⌈0.6 × playerCount⌉), and `determineWinner`
returns exactly the first candidate, scanning the recorded votes in the
order they were cast, whose running vote count reaches the threshold —
`none` when no candidate reaches it (witnessed by the spec's two
4-player examples). -/
theorem winner_determination_first_to_threshold :
    (∀ votes req, determineWinner votes req = winnerScanSpec [] votes req)
    ∧ requiredVotesByPlayerCount 4 = some 3
    ∧ requiredVotesByPlayerCount 5 = some 3
    ∧ requiredVotesByPlayerCount 6 = some 4
    ∧ Nat.ceil ((0.6 : ℚ) * 4) = 3
    ∧ Nat.ceil ((0.6 : ℚ) * 5) = 3
    ∧ Nat.ceil ((0.6 : ℚ) * 6) = 4
    ∧ determineWinner ["A", "A", "A"] 3 = some "A"
    ∧ determineWinner ["A", "A", "A", "B"] 3 = some "A"
    ∧ determineWinner ["A", "B", "C", "B"] 3 = none := by
  refine ⟨?_, rfl, rfl, rfl, ?_, ?_, ?_, by decide, by decide, by decide⟩
  · intro votes req
    exact determineWinnerAux_eq_scan votes req [] _ (by intro v; simp)
  · rw [Nat.ceil_eq_iff (by norm_num)]; norm_num
  · rw [Nat.ceil_eq_iff (by norm_num)]; norm_num
  · rw [Nat.ceil_eq_iff (by norm_num)]; norm_num

theorem winnerResolve_winnerVotes (g1 : Game) (rOk : Bool) :
    (winnerResolve g1 rOk).game.winnerVotes = g1.winnerVotes := by
  simp only [winnerResolve]
  repeat' split
  all_goals rfl

theorem winnerSelection_game_winnerVotes (game : Game) (p w : String)
    (rOk : Bool) (hwin : game.winner = none) :
    (winnerSelection game p w rOk).game.winnerVotes
      = JsObj.set game.winnerVotes p w := by
  unfold winnerSelection
  rw [hwin]
  simp only [truthyStr, Bool.false_eq_true, if_false]
  exact winnerResolve_winnerVotes _ rOk

/-- C3: in a lobby with no winner recorded yet, as soon as the recorded
winner-vote map holds at least 2 `"not_played"` votes after the new vote
is recorded, `WinnerSelection` ends the game immediately with no winner —
whatever the other recorded votes are and however many votes are still
outstanding: the outcome is the not-played resolution, no winner is
committed, and no external report is made. -/
theorem vote_winner_not_played_threshold (game : Game) (p w : String)
    (rOk : Bool) (hwin : game.winner = none)
    (hnp : notPlayedVoteThreshold
            ≤ countNotPlayed (JsObj.set game.winnerVotes p w)) :
    (winnerSelection game p w rOk).outcome = .notPlayedNoResult
    ∧ (winnerSelection game p w rOk).accepted = true
    ∧ (winnerSelection game p w rOk).reportCalls = 0
    ∧ (winnerSelection game p w rOk).game.winner = none
    ∧ (winnerSelection game p w rOk).game.winnerVotes
        = JsObj.set game.winnerVotes p w := by
  unfold winnerSelection
  rw [hwin]
  simp only [truthyStr, Bool.false_eq_true, if_false]
  unfold winnerResolve
  rw [if_pos hnp]
  exact ⟨rfl, rfl, rfl, rfl, rfl⟩

/-- Fixture for the C3 witness: a 5-player lobby where candidate `A`
already has the 3 votes required, but one "not played" vote is recorded
and the new vote is the second "not played" vote. -/
def c3Game : Game :=
  { gameThreadId := "thread", playerCount := 5, eloRequirement := 0,
    players := ["p1", "p2", "p3", "p4", "p5"],
    settingsOptions := [], settingsVotes := [],
    selectedSettingId := some "8261",
    winnerVotes :=
      [("p1", "not_played"), ("p2", "A"), ("p3", "A"), ("p4", "A")],
    winner := none, createdAt := 1, filledAt := none, completedAt := none }

theorem vote_winner_not_played_threshold_witness :
    (winnerSelection c3Game "p5" "not_played" true).outcome
        = .notPlayedNoResult
    ∧ (winnerSelection c3Game "p5" "not_played" true).accepted = true
    ∧ (winnerSelection c3Game "p5" "not_played" true).reportCalls = 0
    ∧ (winnerSelection c3Game "p5" "not_played" true).game.winner = none
    ∧ (winnerSelection c3Game "p5" "not_played" true).game.winnerVotes
        = JsObj.set c3Game.winnerVotes "p5" "not_played" :=
  vote_winner_not_played_threshold c3Game "p5" "not_played" true
    (by decide) (by decide)

/-- C4: in a lobby with no winner recorded yet, when a participant who
already has an entry in the winner-vote map votes again (with any choice),
`WinnerSelection` replaces that participant's entry in place: the new
choice is the participant's recorded vote, the voter list is unchanged,
the map does not grow, and one-entry-per-participant is preserved. -/
theorem vote_winner_revote_replaces (game : Game) (p w v : String)
    (rOk : Bool) (hwin : game.winner = none)
    (hprev : JsObj.get game.winnerVotes p = some v) :
    JsObj.get (winnerSelection game p w rOk).game.winnerVotes p = some w
    ∧ JsObj.keys (winnerSelection game p w rOk).game.winnerVotes
        = JsObj.keys game.winnerVotes
    ∧ (winnerSelection game p w rOk).game.winnerVotes.length
        = game.winnerVotes.length
    ∧ ((JsObj.keys game.winnerVotes).Nodup →
        (JsObj.keys (winnerSelection game p w rOk).game.winnerVotes).Nodup) := by
  rw [winnerSelection_game_winnerVotes game p w rOk hwin]
  refine ⟨JsObj.get_set_self _ _ _,
          JsObj.keys_set_of_get_some _ _ v _ hprev,
          JsObj.length_set_of_get_some _ _ v _ hprev, ?_⟩
  intro hnd
  rw [JsObj.keys_set_of_get_some _ _ v _ hprev]
  exact hnd

/-- Fixture for the C4 witness: `p1` has voted `A` and now votes `B`. -/
def c4Game : Game :=
  { gameThreadId := "thread", playerCount := 4, eloRequirement := 0,
    players := ["p1", "p2", "p3", "p4"],
    settingsOptions := [], settingsVotes := [],
    selectedSettingId := some "8268",
    winnerVotes := [("p1", "A"), ("p2", "B")],
    winner := none, createdAt := 1, filledAt := none, completedAt := none }

theorem vote_winner_revote_replaces_witness :
    JsObj.get (winnerSelection c4Game "p1" "B" true).game.winnerVotes "p1"
        = some "B"
    ∧ JsObj.keys (winnerSelection c4Game "p1" "B" true).game.winnerVotes
        = JsObj.keys c4Game.winnerVotes
    ∧ (winnerSelection c4Game "p1" "B" true).game.winnerVotes.length
        = c4Game.winnerVotes.length
    ∧ ((JsObj.keys c4Game.winnerVotes).Nodup →
        (JsObj.keys
          (winnerSelection c4Game "p1" "B" true).game.winnerVotes).Nodup) :=
  vote_winner_revote_replaces c4Game "p1" "B" "A" true (by decide) (by decide)

/-- Fixture for the C2 counterexample: a 4-player lobby (3 votes required)
where `A` already has two votes and `p3` is about to cast the third. -/
def c2Game : Game :=
  { gameThreadId := "thread", playerCount := 4, eloRequirement := 0,
    players := ["p1", "p2", "p3", "p4"],
    settingsOptions := [], settingsVotes := [],
    selectedSettingId := some "8268",
    winnerVotes := [("p1", "A"), ("p2", "A")],
    winner := none, createdAt := 1, filledAt := none, completedAt := none }

/-- C2 counterexample: `p3`'s vote resolves the tally to winner `A` and the
external report is invoked, but the report fails transiently, so the
winner is not committed; the retried `WinnerSelection` call then invokes
the external report a second time for the same lobby — refuting "a retry
after a transient Scoring Service failure never invokes the reporting
call a second time". There is also no `resultSubmitted` flag in the
stored record to gate it. -/
theorem report_reinvoked_after_transient_failure :
    (winnerSelection c2Game "p3" "A" false).reportCalls = 1
    ∧ (winnerSelection c2Game "p3" "A" false).outcome = .reportFailed "A"
    ∧ (winnerSelection c2Game "p3" "A" false).game.winner = none
    ∧ (winnerSelection
        (winnerSelection c2Game "p3" "A" false).game "p3" "A" true).reportCalls
        = 1
    ∧ (winnerSelection
        (winnerSelection c2Game "p3" "A" false).game "p3" "A" true).outcome
        = .winnerReported "A" := by
  decide

/-- C2 (amended): the external report is gated by the committed `winner`
field, not by a `resultSubmitted` flag. Once a call has committed a real
winner (which happens only on a successful report), `game.winner` is
truthy and every later `WinnerSelection` call returns at the winner guard
with no report invoked and the game unchanged; conversely, starting from
an unresolved lobby, the winner is committed only in a call that invoked
the report exactly once and saw it succeed. After a transient report
failure the winner is not committed, so a retry reports again. -/
theorem report_gated_by_winner_field (game : Game) (p w : String)
    (rOk : Bool) :
    (truthyStr game.winner = true →
      (winnerSelection game p w rOk).reportCalls = 0
      ∧ (winnerSelection game p w rOk).game = game
      ∧ (winnerSelection game p w rOk).accepted = false)
    ∧ (game.winner = none → ∀ v,
        (winnerSelection game p w rOk).game.winner = some v →
          (winnerSelection game p w rOk).reportCalls = 1
          ∧ rOk = true
          ∧ (winnerSelection game p w rOk).outcome = .winnerReported v) := by
  constructor
  · intro h
    unfold winnerSelection
    rw [h]
    exact ⟨rfl, rfl, rfl⟩
  · intro hwin v
    unfold winnerSelection
    rw [hwin]
    simp only [truthyStr, Bool.false_eq_true, if_false]
    simp only [winnerResolve]
    repeat' split
    all_goals simp_all

/-- Fixture for the C2 witness: a lobby whose winner is already
committed. -/
def c2DoneGame : Game :=
  { c2Game with winnerVotes := [("p1", "A"), ("p2", "A"), ("p3", "A")],
                winner := some "A" }

theorem report_gated_by_winner_field_witness :
    ((winnerSelection c2DoneGame "p4" "B" true).reportCalls = 0
      ∧ (winnerSelection c2DoneGame "p4" "B" true).game = c2DoneGame
      ∧ (winnerSelection c2DoneGame "p4" "B" true).accepted = false)
    ∧ ((winnerSelection c2Game "p3" "A" true).reportCalls = 1
      ∧ true = true
      ∧ (winnerSelection c2Game "p3" "A" true).outcome
          = .winnerReported "A") :=
  ⟨(report_gated_by_winner_field c2DoneGame "p4" "B" true).1 (by decide),
   (report_gated_by_winner_field c2Game "p3" "A" true).2 (by decide) "A"
     (by decide)⟩

/-- The settingids of a list of settings. -/
def settingIds (l : List Setting) : List String := l.map (fun s => s.settingid)

/-- `addSettingsVoteToGame` from `src/commands/settings-poll-selection.js`:
looks the chosen option up in `settingsOptions` and records it under the
voter's key. When the lookup misses, JS assigns `undefined`, which the
JSON round trip through the store drops, so the stored map loses the key. -/
def addSettingsVoteToGame (game : Game) (playerId selectionId : String) :
    Game :=
  match game.settingsOptions.find? (fun o => o.settingid = selectionId) with
  | some choice =>
      { game with settingsVotes := JsObj.set game.settingsVotes playerId choice }
  | none =>
      { game with settingsVotes := JsObj.del game.settingsVotes playerId }

/-- `SettingsPollSelectionMade(gameId, playerId, selectionId)` from
`src/commands/settings-poll-selection.js` as a pure step on the stored
game: rejects (returns `false`) when the vote count already equals
`playerCount` (`validateGameNotAlreadyFinalized`), otherwise records the
vote and, when the vote count now equals `playerCount`, finalizes by
drawing the vote at random index `r` (`maybeFinalizeVote`). -/
def settingsPollSelectionMade (game : Game) (playerId selectionId : String)
    (r : Nat) : Game × Bool :=
  if (JsObj.values game.settingsVotes).length = game.playerCount then
    (game, false)
  else
    let g1 := addSettingsVoteToGame game playerId selectionId
    let votes := JsObj.values g1.settingsVotes
    if votes.length = g1.playerCount then
      match votes.get? r with
      | some chosen =>
          ({ g1 with selectedSettingId := some chosen.settingid }, true)
      | none => (g1, true)
    else (g1, true)

/-- Outcome of `AtomicVoteSettings` (`redis.js` revision). -/
inductive VoteSettingsOutcome where
  | notFound
  | alreadyFinalized
  | alreadyVoted
  /-- Vote recorded; `finalized` says whether `selectedSettingId` was set. -/
  | recorded (finalized : Bool)
deriving DecidableEq, Repr

/-- `AtomicVoteSettings(gameId, playerId, settingsChoice)` from the
`redis.js` revision: rejects when `selectedSettingId` is truthy or the
participant already voted; otherwise records the vote and, when the vote
count equals `playerCount`, finalizes from the vote at random index `r`.
Returns the committed stored value and the outcome. -/
def atomicVoteSettings :
    Option Game → String → Setting → Nat → Option Game × VoteSettingsOutcome
  | none, _, _, _ => (none, .notFound)
  | some game, p, choice, r =>
      if truthyStr game.selectedSettingId then (some game, .alreadyFinalized)
      else if (JsObj.get game.settingsVotes p).isSome then
        (some game, .alreadyVoted)
      else
        let g1 :=
          { game with settingsVotes := JsObj.set game.settingsVotes p choice }
        let votes := JsObj.values g1.settingsVotes
        if votes.length = g1.playerCount then
          match votes.get? r with
          | some sel =>
              (some { g1 with selectedSettingId := some sel.settingid },
               .recorded true)
          | none => (some g1, .recorded true)
        else (some g1, .recorded false)

/-- C6: when a settings vote brings the number of distinct voters to
`playerCount`, finalization sets `selectedSettingId` to the settingid of
the submitted vote at the drawn random index — always one of the
submitted votes, never a value from outside them — and the id is set
exactly once: a lobby whose vote count already equals `playerCount`
rejects further `SettingsPollSelectionMade` calls unchanged, and a lobby
with `selectedSettingId` already set rejects further `AtomicVoteSettings`
calls unchanged. Stated for both the command path
(`SettingsPollSelectionMade`/`maybeFinalizeVote`) and the transactional
path (`AtomicVoteSettings`). -/
theorem vote_settings_finalize_from_submitted (game : Game)
    (p sid : String) (c : Setting) (r : Nat) :
    ((JsObj.values game.settingsVotes).length ≠ game.playerCount →
      ∀ s,
        (JsObj.values (addSettingsVoteToGame game p sid).settingsVotes).length
          = game.playerCount →
        (JsObj.values (addSettingsVoteToGame game p sid).settingsVotes).get? r
          = some s →
        settingsPollSelectionMade game p sid r
          = ({ addSettingsVoteToGame game p sid with
                selectedSettingId := some s.settingid }, true)
        ∧ s.settingid
            ∈ settingIds
                (JsObj.values (addSettingsVoteToGame game p sid).settingsVotes))
    ∧ ((JsObj.values game.settingsVotes).length ≠ game.playerCount →
        (JsObj.values (addSettingsVoteToGame game p sid).settingsVotes).length
          ≠ game.playerCount →
        (settingsPollSelectionMade game p sid r).1.selectedSettingId
          = game.selectedSettingId)
    ∧ ((JsObj.values game.settingsVotes).length = game.playerCount →
        settingsPollSelectionMade game p sid r = (game, false))
    ∧ (truthyStr game.selectedSettingId = false →
        JsObj.get game.settingsVotes p = none →
        ∀ s,
          (JsObj.values (JsObj.set game.settingsVotes p c)).length
            = game.playerCount →
          (JsObj.values (JsObj.set game.settingsVotes p c)).get? r = some s →
          atomicVoteSettings (some game) p c r
            = (some { game with
                        settingsVotes := JsObj.set game.settingsVotes p c,
                        selectedSettingId := some s.settingid },
               .recorded true)
          ∧ s.settingid
              ∈ settingIds (JsObj.values (JsObj.set game.settingsVotes p c)))
    ∧ (truthyStr game.selectedSettingId = true →
        atomicVoteSettings (some game) p c r = (some game, .alreadyFinalized)) := by
  have hpc : (addSettingsVoteToGame game p sid).playerCount
      = game.playerCount := by
    unfold addSettingsVoteToGame
    split
    all_goals rfl
  refine ⟨?_, ?_, ?_, ?_, ?_⟩
  · intro hne s hcnt hget
    constructor
    · simp only [settingsPollSelectionMade, if_neg hne, hpc, if_pos hcnt,
        hget]
    · have hs : s ∈ JsObj.values (addSettingsVoteToGame game p sid).settingsVotes :=
        List.get?_mem hget
      exact List.mem_map_of_mem _ hs
  · intro hne hne2
    simp only [settingsPollSelectionMade, if_neg hne, hpc, if_neg hne2]
    unfold addSettingsVoteToGame
    split
    all_goals rfl
  · intro heq
    simp only [settingsPollSelectionMade, if_pos heq]
  · intro hsel hvoted s hcnt hget
    constructor
    · simp only [atomicVoteSettings, hsel, Bool.false_eq_true, if_false,
        hvoted, Option.isSome_none, if_pos hcnt, hget]
    · have hs : s ∈ JsObj.values (JsObj.set game.settingsVotes p c) :=
        List.get?_mem hget
      exact List.mem_map_of_mem _ hs
  · intro hsel
    simp only [atomicVoteSettings, hsel, if_true]

/-- Fixture for the C6 witness: a 4-player lobby with three votes
recorded; `p4`'s vote finalizes and random index 2 draws `p3`'s vote. -/
def c6Setting (i : String) : Setting :=
  { settingid := i, mapName := "m", gametype := "g", cards := "c",
    link := "l" }

def c6Game : Game :=
  { gameThreadId := "thread", playerCount := 4, eloRequirement := 0,
    players := ["p1", "p2", "p3", "p4"],
    settingsOptions := [c6Setting "8268", c6Setting "8269", c6Setting "8270"],
    settingsVotes :=
      [("p1", c6Setting "8268"), ("p2", c6Setting "8269"),
       ("p3", c6Setting "8268")],
    selectedSettingId := none,
    winnerVotes := [], winner := none,
    createdAt := 1, filledAt := some 5, completedAt := none }

theorem vote_settings_finalize_from_submitted_witness :
    (settingsPollSelectionMade c6Game "p4" "8270" 2
        = ({ addSettingsVoteToGame c6Game "p4" "8270" with
              selectedSettingId := some "8268" }, true)
      ∧ "8268"
          ∈ settingIds
              (JsObj.values
                (addSettingsVoteToGame c6Game "p4" "8270").settingsVotes))
    ∧ atomicVoteSettings (some { c6Game with selectedSettingId := some "8268" })
        "p4" (c6Setting "8270") 2
        = (some { c6Game with selectedSettingId := some "8268" },
           .alreadyFinalized) := by
  constructor
  · have h := (vote_settings_finalize_from_submitted c6Game "p4" "8270"
      (c6Setting "8270") 2).1 (by decide) (c6Setting "8268") (by decide)
      (by decide)
    exact h
  · exact (vote_settings_finalize_from_submitted
      { c6Game with selectedSettingId := some "8268" } "p4" "8270"
      (c6Setting "8270") 2).2.2.2.2 (by decide)

/-- `TIMING.SETTINGS_SELECTION_TIME` from `src/constants.js` (5 minutes). -/
def settingsSelectionTime : Nat := 300000

/-- One pass of `CloseSettingsSelection` (`src/utils/utils.js`) over a
single stored game, with `now` the sweep start time and `r` the random
index drawn: skips games whose settings are already selected, that are
not yet filled, or whose settings window has not elapsed; otherwise picks
from the submitted votes when any exist, else from `settingsOptions`, and
commits the chosen settingid. Returns the updated game, or `none` when
the pass leaves the game untouched. -/
def closeSettingsSelection (now : Nat) (game : Game) (r : Nat) :
    Option Game :=
  if truthyStr game.selectedSettingId then none
  else if truthyNat game.filledAt = false then none
  else if now - game.filledAt.getD 0 < settingsSelectionTime then none
  else
    let votes := JsObj.values game.settingsVotes
    let chosen :=
      if 0 < votes.length then votes.get? r else game.settingsOptions.get? r
    match chosen with
    | some s => some { game with selectedSettingId := some s.settingid }
    | none => none

/-- C8: for a filled lobby with no selected setting whose settings window
has elapsed, the sweeper finalizes from the submitted vote at the drawn
index when at least one settings vote exists, and from a member of the
original `settingsOptions` when there are no votes — never from the empty
vote multiset. -/
theorem sweeper_settings_fallback (now : Nat) (game : Game) (r : Nat)
    (hsel : truthyStr game.selectedSettingId = false)
    (hfill : truthyNat game.filledAt = true)
    (htime : settingsSelectionTime ≤ now - game.filledAt.getD 0) :
    (game.settingsVotes ≠ [] →
      ∀ s, (JsObj.values game.settingsVotes).get? r = some s →
        closeSettingsSelection now game r
          = some { game with selectedSettingId := some s.settingid }
        ∧ s ∈ JsObj.values game.settingsVotes)
    ∧ (game.settingsVotes = [] →
        ∀ s, game.settingsOptions.get? r = some s →
          closeSettingsSelection now game r
            = some { game with selectedSettingId := some s.settingid }
          ∧ s ∈ game.settingsOptions) := by
  have hns : ¬ now - game.filledAt.getD 0 < settingsSelectionTime :=
    not_lt.mpr htime
  constructor
  · intro hne s hget
    have hlen : 0 < (JsObj.values game.settingsVotes).length := by
      cases h : game.settingsVotes with
      | nil => exact absurd h hne
      | cons e rest => simp [JsObj.values, h]
    refine ⟨?_, List.get?_mem hget⟩
    have hget2 : (JsObj.values game.settingsVotes)[r]? = some s := by
      simpa using hget
    simp [closeSettingsSelection, hsel, hfill, hns, hlen, hget2]
  · intro hemp s hget
    have hlen : ¬ 0 < (JsObj.values game.settingsVotes).length := by
      simp [JsObj.values, hemp]
    refine ⟨?_, List.get?_mem hget⟩
    have hget2 : game.settingsOptions[r]? = some s := by
      simpa using hget
    simp [closeSettingsSelection, hsel, hfill, hns, hlen, hget2]

/-- Fixture for the C8 witness: a filled 4-player lobby with zero settings
votes, 6 minutes after filling. -/
def c8Game : Game :=
  { gameThreadId := "thread", playerCount := 4, eloRequirement := 0,
    players := ["p1", "p2", "p3", "p4"],
    settingsOptions := [c6Setting "8268", c6Setting "8269", c6Setting "8270"],
    settingsVotes := [],
    selectedSettingId := none,
    winnerVotes := [], winner := none,
    createdAt := 1, filledAt := some 1000, completedAt := none }

theorem sweeper_settings_fallback_witness :
    closeSettingsSelection 361000 c8Game 1
        = some { c8Game with selectedSettingId := some "8269" }
    ∧ c6Setting "8269" ∈ c8Game.settingsOptions :=
  (sweeper_settings_fallback 361000 c8Game 1 (by decide) (by decide)
    (by decide)).2 (by decide) (c6Setting "8269") (by decide)

/-- Result of `AtomicLeaveGame` (`redis.js` revision): the returned
`{success, game}` pair, plus the value committed under the game's store
key by the transaction (`none` after the `multi.del` teardown of an
emptied lobby; the original value when the call fails before the
transaction). -/
structure AtomicLeaveResult where
  success : Bool
  game : Option Game
  storedGame : Option Game
deriving DecidableEq, Repr

/-- `AtomicLeaveGame(gameId, playerId)` from the `redis.js` revision:
fails when the lobby is absent, the participant is not on the roster, or
`selectedSettingId` is truthy; on success removes the participant and
their settings vote, clears `filledAt` when the roster is no longer full,
and commits — deleting the lobby record entirely when the roster became
empty (the participant's index entry is deleted in the same
transaction). -/
def atomicLeaveGame : Option Game → String → AtomicLeaveResult
  | none, _ => ⟨false, none, none⟩
  | some game, p =>
      if ¬ game.players.contains p then ⟨false, none, some game⟩
      else if truthyStr game.selectedSettingId then ⟨false, none, some game⟩
      else
        let g1 :=
          { game with
              players := game.players.filter (fun id => ¬ id = p),
              settingsVotes := JsObj.del game.settingsVotes p }
        let g2 :=
          if truthyNat g1.filledAt = true ∧ g1.players.length < g1.playerCount
          then { g1 with filledAt := none } else g1
        ⟨true, some g2, if g2.players.length = 0 then none else some g2⟩

/-- C7: a successful `AtomicLeaveGame` removes the participant from the
roster and deletes their settings vote, and in the committed state the
`filledAt` timestamp is unset whenever the resulting roster is below
`playerCount` (an emptied lobby is deleted in the same commit). The
hypothesis `filledAt ≠ some 0` holds of every stored value, which is a
`Date.now()` timestamp. -/
theorem leave_removes_and_clears_filled (game : Game) (p : String)
    (hmem : p ∈ game.players)
    (hsel : truthyStr game.selectedSettingId = false)
    (hfz : game.filledAt ≠ some 0) :
    (atomicLeaveGame (some game) p).success = true
    ∧ ∃ g2, (atomicLeaveGame (some game) p).game = some g2
        ∧ g2.players = game.players.filter (fun id => ¬ id = p)
        ∧ g2.settingsVotes = JsObj.del game.settingsVotes p
        ∧ g2.playerCount = game.playerCount
        ∧ (g2.players.length < g2.playerCount → g2.filledAt = none)
        ∧ (atomicLeaveGame (some game) p).storedGame
            = (if g2.players.length = 0 then none else some g2) := by
  have hcontains : game.players.contains p = true :=
    List.elem_eq_true_of_mem hmem
  simp only [atomicLeaveGame, hcontains, not_true, if_neg, hsel,
    Bool.false_eq_true, if_false]
  constructor
  · trivial
  · split
    · next hcond =>
        exact ⟨_, rfl, rfl, rfl, rfl, fun _ => rfl, rfl⟩
    · next hcond =>
        refine ⟨_, rfl, rfl, rfl, rfl, ?_, rfl⟩
        intro hlt
        rcases hf : game.filledAt with _ | n
        · rfl
        · exfalso
          rcases Nat.eq_zero_or_pos n with hn | hn
          · exact hfz (by simp [hf, hn])
          · exact hcond ⟨by simp [truthyNat, hf, Nat.pos_iff_ne_zero.mp hn],
              hlt⟩

/-- Fixture for the C7 witness: a filled 4-player lobby from which `p2`
leaves before settings are selected. -/
def c7Game : Game :=
  { gameThreadId := "thread", playerCount := 4, eloRequirement := 0,
    players := ["p1", "p2", "p3", "p4"],
    settingsOptions := [c6Setting "8268"],
    settingsVotes := [("p1", c6Setting "8268"), ("p2", c6Setting "8268")],
    selectedSettingId := none,
    winnerVotes := [], winner := none,
    createdAt := 1, filledAt := some 1000, completedAt := none }

theorem leave_removes_and_clears_filled_witness :
    (atomicLeaveGame (some c7Game) "p2").success = true
    ∧ ∃ g2, (atomicLeaveGame (some c7Game) "p2").game = some g2
        ∧ g2.players = c7Game.players.filter (fun id => ¬ id = "p2")
        ∧ g2.settingsVotes = JsObj.del c7Game.settingsVotes "p2"
        ∧ g2.playerCount = c7Game.playerCount
        ∧ (g2.players.length < g2.playerCount → g2.filledAt = none)
        ∧ (atomicLeaveGame (some c7Game) "p2").storedGame
            = (if g2.players.length = 0 then none else some g2) :=
  leave_removes_and_clears_filled c7Game "p2" (by decide) (by decide)
    (by decide)

/-- The Redis key space as seen through `redis.js`: one lobby record per
game id (`game-*`) and one active-game pointer per participant
(`active-player-*`). -/
structure Store where
  games : String → Option Game
  active : String → Option String

/-- `RemovePlayerInGame(playerId)`: delete the participant's index
entry. -/
def Store.removeActive (st : Store) (p : String) : Store :=
  { st with active := fun q => if q = p then none else st.active q }

/-- `IsPlayerInGame(playerId)` from the `redis.js` revision: reads the
index entry; a falsy entry reports false; an entry whose lobby is absent,
or whose lobby does not list the participant, is stale — it is deleted
and false is reported; otherwise true. Returns the answer and the store
afterwards. -/
def isPlayerInGame (st : Store) (p : String) : Bool × Store :=
  match st.active p with
  | none => (false, st)
  | some gid =>
      if gid = "" then (false, st)
      else
        match st.games gid with
        | none => (false, st.removeActive p)
        | some g =>
            if g.players.contains p then (true, st)
            else (false, st.removeActive p)

/-- C9: when the player-index entry points to a lobby that is absent or
that does not list the participant, `IsPlayerInGame` deletes the stale
index entry and reports the participant as not in a game; it reports true
only when the referenced lobby exists and lists the participant (and then
leaves the store untouched). -/
theorem player_index_stale_cleanup (st : Store) (p gid : String) (g : Game) :
    (st.active p = some gid → gid ≠ "" → st.games gid = none →
      isPlayerInGame st p = (false, st.removeActive p))
    ∧ (st.active p = some gid → gid ≠ "" → st.games gid = some g →
        p ∉ g.players →
        isPlayerInGame st p = (false, st.removeActive p))
    ∧ ((isPlayerInGame st p).1 = true →
        ∃ gid' g', st.active p = some gid' ∧ st.games gid' = some g'
          ∧ p ∈ g'.players ∧ (isPlayerInGame st p).2 = st) := by
  refine ⟨?_, ?_, ?_⟩
  · intro ha hne hg
    simp [isPlayerInGame, ha, hne, hg]
  · intro ha hne hg hmem
    simp [isPlayerInGame, ha, hne, hg, hmem]
  · intro htrue
    rcases ha : st.active p with _ | gid'
    · simp [isPlayerInGame, ha] at htrue
    · by_cases hne : gid' = ""
      · simp [isPlayerInGame, ha, hne] at htrue
      · rcases hg : st.games gid' with _ | g'
        · simp [isPlayerInGame, ha, hne, hg] at htrue
        · by_cases hmem2 : p ∈ g'.players
          · exact ⟨gid', g', rfl, hg, hmem2,
              by simp [isPlayerInGame, ha, hne, hg, hmem2]⟩
          · simp [isPlayerInGame, ha, hne, hg, hmem2] at htrue

/-- Fixture for the C9 witness: `p1`'s index entry points to lobby `g1`,
which exists but does not list `p1`. -/
def c9Store : Store :=
  { games := fun gid =>
      if gid = "g1" then
        some { gameThreadId := "g1", playerCount := 4, eloRequirement := 0,
               players := ["p2", "p3"], settingsOptions := [],
               settingsVotes := [], selectedSettingId := none,
               winnerVotes := [], winner := none,
               createdAt := 1, filledAt := none, completedAt := none }
      else none,
    active := fun q => if q = "p1" then some "g1" else none }

theorem player_index_stale_cleanup_witness :
    isPlayerInGame c9Store "p1" = (false, c9Store.removeActive "p1") :=
  (player_index_stale_cleanup c9Store "p1" "g1"
      { gameThreadId := "g1", playerCount := 4, eloRequirement := 0,
        players := ["p2", "p3"], settingsOptions := [],
        settingsVotes := [], selectedSettingId := none,
        winnerVotes := [], winner := none,
        createdAt := 1, filledAt := none, completedAt := none }).2.1
    (by simp [c9Store]) (by decide) (by simp [c9Store]) (by decide)

/-- Outcome of `AtomicJoinGame` (`redis.js` revision). -/
inductive JoinOutcome where
  | notFound
  | alreadyInGame
  | full
  | started
  | joined
deriving DecidableEq, Repr

/-- `AtomicJoinGame(gameId, playerId)` from the `redis.js` revision:
validated append of the participant to the roster (failures leave the
stored lobby untouched); returns the committed stored value and the
outcome. -/
def atomicJoinGame : Option Game → String → Option Game × JoinOutcome
  | none, _ => (none, .notFound)
  | some game, p =>
      if game.players.contains p then (some game, .alreadyInGame)
      else if game.playerCount ≤ game.players.length then (some game, .full)
      else if truthyStr game.selectedSettingId then (some game, .started)
      else (some { game with players := game.players ++ [p] }, .joined)

/-- Rejections raised by `validateJoinGameConditions`
(`src/commands/join-game.js`) as a typed value. -/
inductive JoinError where
  | alreadyInGame
  | full
  | belowElo
deriving DecidableEq, Repr

/-- `validateJoinGameConditions(game, playerId)` from
`src/commands/join-game.js`: rejects when the participant is indexed in
another (existing) lobby, when the roster is at capacity, or when the ELO
requirement is not met; `playerElo` is the caller's fetched
`ffa_elo_score || 0`. Returns the rejection (if any) and the store after
the embedded `IsPlayerInGame` check. -/
def validateJoinGameConditions (st : Store) (game : Game) (p : String)
    (playerElo : Nat) : Option JoinError × Store :=
  let res := isPlayerInGame st p
  if res.1 then (some .alreadyInGame, res.2)
  else if game.players.length = game.playerCount then (some .full, res.2)
  else if game.eloRequirement ≠ 0 ∧ playerElo < game.eloRequirement then
    (some .belowElo, res.2)
  else (none, res.2)

/-- C5: Join fails without touching the lobby when the lobby is absent,
when the roster is at capacity, and — late join forbidden — whenever
`selectedSettingId` is already set (whatever guard fires first, the
stored lobby is unchanged and the outcome is not `joined`); and the
command-path validation rejects a participant whose player-index entry
shows them in another existing lobby. -/
theorem join_rejections (game : Game) (p : String) (st : Store)
    (elo : Nat) :
    atomicJoinGame none p = (none, .notFound)
    ∧ (p ∉ game.players → game.playerCount ≤ game.players.length →
        atomicJoinGame (some game) p = (some game, .full))
    ∧ (p ∉ game.players → game.players.length < game.playerCount →
        truthyStr game.selectedSettingId = true →
        atomicJoinGame (some game) p = (some game, .started))
    ∧ (truthyStr game.selectedSettingId = true →
        (atomicJoinGame (some game) p).1 = some game
        ∧ (atomicJoinGame (some game) p).2 ≠ .joined)
    ∧ ((isPlayerInGame st p).1 = true →
        (validateJoinGameConditions st game p elo).1 = some .alreadyInGame) := by
  refine ⟨rfl, ?_, ?_, ?_, ?_⟩
  · intro hmem hfull
    simp [atomicJoinGame, hmem, hfull]
  · intro hmem hlt hsel
    simp [atomicJoinGame, hmem, Nat.not_le.mpr hlt, hsel]
  · intro hsel
    by_cases hmem : p ∈ game.players
    · constructor
      · simp [atomicJoinGame, hmem]
      · simp [atomicJoinGame, hmem]
    · by_cases hfull : game.playerCount ≤ game.players.length
      · constructor
        · simp [atomicJoinGame, hmem, hfull]
        · simp [atomicJoinGame, hmem, hfull]
      · constructor
        · simp [atomicJoinGame, hmem, hfull, hsel]
        · simp [atomicJoinGame, hmem, hfull, hsel]
  · intro htrue
    simp [validateJoinGameConditions, htrue]

/-- Fixture for the C5 witness: a 4-player lobby with three players whose
settings are already selected; `p9` tries to join late. -/
def c5Game : Game :=
  { gameThreadId := "g1", playerCount := 4, eloRequirement := 0,
    players := ["p1", "p2", "p3"], settingsOptions := [],
    settingsVotes := [], selectedSettingId := some "8268",
    winnerVotes := [], winner := none,
    createdAt := 1, filledAt := none, completedAt := none }

def c5Store : Store :=
  { games := fun gid => if gid = "g1" then some c5Game else none,
    active := fun q => if q = "p1" then some "g1" else none }

theorem join_rejections_witness :
    atomicJoinGame (some c5Game) "p9" = (some c5Game, .started)
    ∧ (validateJoinGameConditions c5Store c5Game "p1" 0).1
        = some .alreadyInGame :=
  ⟨(join_rejections c5Game "p9" c5Store 0).2.2.1 (by decide) (by decide)
      (by decide),
   (join_rejections c5Game "p1" c5Store 0).2.2.2.2 (by simp [c5Store,
      isPlayerInGame, c5Game])⟩

/-- JS `list.splice(i, 1)[0]`: the removed element (`undefined` — `none` —
when `i` is out of range) and the list after removal. -/
def spliceOne (l : List α) (i : Nat) : Option α × List α :=
  (l.get? i, l.eraseIdx i)

/-- `GetRandomizedSettings(playerCount)` (`src/utils/utils.js`) acting on
the pool for that player count: the `while` loop pushes exactly 3 spliced
entries (each `push` grows the result, so the loop runs 3 times even if
the pool runs out), mutating the pool in place. `r1 r2 r3` are the drawn
random indices. Returns the 3 picks and the depleted pool. -/
def getRandomizedSettings (pool : List Setting) (r1 r2 r3 : Nat) :
    List (Option Setting) × List Setting :=
  let (s1, p1) := spliceOne pool r1
  let (s2, p2) := spliceOne p1 r2
  let (s3, p3) := spliceOne p2 r3
  ([s1, s2, s3], p3)

/-- Helper building one `SETTINGS_BY_PLAYER_COUNT` entry; every entry's
link is `https://friendsofrisk.com/setting/<id>.png`. -/
def mkSetting (id mapName gtype cards : String) : Setting :=
  ⟨id, mapName, gtype, cards,
   "https://friendsofrisk.com/setting/" ++ id ++ ".png"⟩

/-- `SETTINGS_BY_PLAYER_COUNT[4]` from `src/utils/utils.js`. -/
def settingsPool4 : List Setting :=
  [mkSetting "8268" "Arrakis" "70" "fixed",
   mkSetting "8269" "Jules Vernes Mysterious Island" "70" "fixed",
   mkSetting "8270" "Dracon Fortress" "70" "fixed",
   mkSetting "8271" "SMG Spaceport" "70" "fixed",
   mkSetting "8272" "Europe" "70" "fixed",
   mkSetting "8273" "Arrakeen" "70" "fixed",
   mkSetting "8352" "United States" "70" "fixed"]

/-- `SETTINGS_BY_PLAYER_COUNT[5]` from `src/utils/utils.js`. -/
def settingsPool5 : List Setting :=
  [mkSetting "8261" "Japan" "70" "prog",
   mkSetting "8262" "Redacted" "70" "prog",
   mkSetting "8163" "Africa Advanced" "zombies" "prog",
   mkSetting "8274" "Las Vegas" "zombies" "prog",
   mkSetting "8275" "Africa" "70" "prog",
   mkSetting "8276" "Deutschland" "zombies" "prog",
   mkSetting "7984" "28 Turns Later" "zombies" "prog",
   mkSetting "8277" "Greece" "70" "fixed",
   mkSetting "8278" "The Younger Scrolls" "caps 70" "fixed"]

/-- `SETTINGS_BY_PLAYER_COUNT[6]` from `src/utils/utils.js`. -/
def settingsPool6 : List Setting :=
  [mkSetting "8263" "Britannia Advanced" "WD" "prog",
   mkSetting "8264" "Canada Advanced" "70" "fixed",
   mkSetting "8265" "Pangaea" "WD" "prog",
   mkSetting "8266" "Mira HQ" "70" "prog",
   mkSetting "8279" "Brazil Advanced" "WD" "prog",
   mkSetting "8280" "Operation ADAM" "70" "prog",
   mkSetting "8281" "Turkey" "70" "prog",
   mkSetting "8282" "Turkey" "WD" "prog",
   mkSetting "8283" "Deutschland" "WD" "prog",
   mkSetting "8284" "Central America" "WD" "prog",
   mkSetting "8285" "Las Vegas" "WD" "prog",
   mkSetting "8286" "Mont St Michel" "70" "fixed",
   mkSetting "8287" "Africa Advanced" "WD" "prog",
   mkSetting "8292" "US Midwest" "WD" "prog",
   mkSetting "8293" "River Town Advanced" "70" "prog",
   mkSetting "8294" "US West" "WD" "prog"]

/-- The module-level `SETTINGS_BY_PLAYER_COUNT` table as initialized. -/
def settingsByPlayerCount : Nat → Option (List Setting) :=
  fun pc =>
    if pc = 4 then some settingsPool4
    else if pc = 5 then some settingsPool5
    else if pc = 6 then some settingsPool6
    else none

/-- A full `GetRandomizedSettings(playerCount)` call against the shared
module table `tbl`: throws (`none`) on an unknown player count, otherwise
splices 3 entries out of that player count's pool and leaves the depleted
pool behind in the table. -/
def getRandomizedSettingsCall (tbl : Nat → Option (List Setting)) (pc : Nat)
    (r1 r2 r3 : Nat) :
    Option (List (Option Setting)) × (Nat → Option (List Setting)) :=
  match tbl pc with
  | none => (none, tbl)
  | some pool =>
      let res := getRandomizedSettings pool r1 r2 r3
      (some res.1, fun n => if n = pc then some res.2 else tbl n)

theorem not_mem_eraseIdx_of_nodup :
    ∀ (l : List α) (i : Nat) (a : α), l.Nodup → l.get? i = some a →
      a ∉ l.eraseIdx i := by
  intro l
  induction l with
  | nil => intro i a _ h; simp at h
  | cons b t ih =>
      intro i a hnd h
      rcases List.nodup_cons.mp hnd with ⟨hb, ht⟩
      cases i with
      | zero =>
          rw [List.get?_cons_zero] at h
          injection h with h
          subst h
          simpa [List.eraseIdx] using hb
      | succ j =>
          rw [List.get?_cons_succ] at h
          have hmem : a ∈ t := List.get?_mem h
          simp only [List.eraseIdx, List.mem_cons]
          rintro (rfl | hin)
          · exact hb hmem
          · exact ih j a ht h hin

theorem getRandomizedSettings_mem_pool (pool : List Setting)
    (r1 r2 r3 : Nat) (s : Setting)
    (h : some s ∈ (getRandomizedSettings pool r1 r2 r3).1) : s ∈ pool := by
  simp only [getRandomizedSettings, spliceOne, List.mem_cons,
    List.not_mem_nil, or_false] at h
  rcases h with h | h | h
  · exact List.get?_mem h.symm
  · exact (List.eraseIdx_sublist pool r1).subset (List.get?_mem h.symm)
  · exact (List.eraseIdx_sublist pool r1).subset
      ((List.eraseIdx_sublist _ r2).subset (List.get?_mem h.symm))

theorem getRandomizedSettings_not_mem_rest (pool : List Setting)
    (r1 r2 r3 : Nat) (s : Setting) (hnd : pool.Nodup)
    (h : some s ∈ (getRandomizedSettings pool r1 r2 r3).1) :
    s ∉ (getRandomizedSettings pool r1 r2 r3).2 := by
  have hnd1 : (pool.eraseIdx r1).Nodup := hnd.eraseIdx r1
  have hnd2 : ((pool.eraseIdx r1).eraseIdx r2).Nodup := hnd1.eraseIdx r2
  simp only [getRandomizedSettings, spliceOne, List.mem_cons,
    List.not_mem_nil, or_false] at h ⊢
  rcases h with h | h | h
  · intro hin
    exact not_mem_eraseIdx_of_nodup pool r1 s hnd h.symm
      ((List.eraseIdx_sublist _ r2).subset
        ((List.eraseIdx_sublist _ r3).subset hin))
  · intro hin
    exact not_mem_eraseIdx_of_nodup _ r2 s hnd1 h.symm
      ((List.eraseIdx_sublist _ r3).subset hin)
  · intro hin
    exact not_mem_eraseIdx_of_nodup _ r3 s hnd2 h.symm hin

/-- C10: `GetRandomizedSettings` always returns a 3-element array, and —
when the pool for the player count still has 3 entries and the drawn
indices are in range, as `Math.floor(Math.random()*length)` guarantees —
all three picks are real settings spliced destructively out of the shared
pool: the pool shrinks by exactly 3, every pick comes from the pool and
is gone from it afterwards, a second call (which sees the depleted pool)
can never return a setting the first call returned, and the table keeps
the depleted pool (initial pools: 7, 9 and 16 pairwise-distinct entries
for 4, 5 and 6 players; unknown player counts throw). -/
theorem randomized_settings_deplete_shared_pool (pool : List Setting)
    (r1 r2 r3 : Nat) (h1 : r1 < pool.length) (h2 : r2 < pool.length - 1)
    (h3 : r3 < pool.length - 2) (hnd : pool.Nodup) :
    (∀ (q : List Setting) (q1 q2 q3 : Nat),
        (getRandomizedSettings q q1 q2 q3).1.length = 3)
    ∧ (∀ o ∈ (getRandomizedSettings pool r1 r2 r3).1, o.isSome = true)
    ∧ (getRandomizedSettings pool r1 r2 r3).2.length = pool.length - 3
    ∧ (∀ s, some s ∈ (getRandomizedSettings pool r1 r2 r3).1 →
        s ∈ pool ∧ s ∉ (getRandomizedSettings pool r1 r2 r3).2)
    ∧ (∀ s q1 q2 q3,
        some s ∈ (getRandomizedSettings
            (getRandomizedSettings pool r1 r2 r3).2 q1 q2 q3).1 →
        some s ∉ (getRandomizedSettings pool r1 r2 r3).1)
    ∧ (∀ tbl pc, tbl pc = some pool →
        getRandomizedSettingsCall tbl pc r1 r2 r3
          = (some (getRandomizedSettings pool r1 r2 r3).1,
             fun n => if n = pc
               then some (getRandomizedSettings pool r1 r2 r3).2
               else tbl n))
    ∧ settingsByPlayerCount 4 = some settingsPool4
    ∧ settingsByPlayerCount 5 = some settingsPool5
    ∧ settingsByPlayerCount 6 = some settingsPool6
    ∧ settingsByPlayerCount 7 = none
    ∧ settingsPool4.length = 7 ∧ settingsPool5.length = 9
    ∧ settingsPool6.length = 16
    ∧ settingsPool4.Nodup ∧ settingsPool5.Nodup ∧ settingsPool6.Nodup := by
  have hl1 : (pool.eraseIdx r1).length = pool.length - 1 :=
    List.length_eraseIdx_of_lt h1
  have hl2 : ((pool.eraseIdx r1).eraseIdx r2).length = pool.length - 2 := by
    rw [List.length_eraseIdx_of_lt (by rw [hl1]; exact h2), hl1]
    omega
  have hl3 : (((pool.eraseIdx r1).eraseIdx r2).eraseIdx r3).length
      = pool.length - 3 := by
    rw [List.length_eraseIdx_of_lt (by rw [hl2]; exact h3), hl2]
    omega
  refine ⟨fun q q1 q2 q3 => rfl, ?_, hl3, ?_, ?_, ?_, rfl, rfl, rfl, rfl,
    rfl, rfl, rfl, ?_, ?_, ?_⟩
  · intro o ho
    simp only [getRandomizedSettings, spliceOne, List.mem_cons,
      List.not_mem_nil, or_false] at ho
    have hr2 : r2 < (pool.eraseIdx r1).length := by rw [hl1]; exact h2
    have hr3 : r3 < ((pool.eraseIdx r1).eraseIdx r2).length := by
      rw [hl2]; exact h3
    rcases ho with ho | ho | ho
    all_goals subst ho
    · simp [List.get?_eq_getElem?, List.getElem?_eq_getElem h1]
    · simp [List.get?_eq_getElem?, List.getElem?_eq_getElem hr2]
    · simp [List.get?_eq_getElem?, List.getElem?_eq_getElem hr3]
  · intro s hs
    exact ⟨getRandomizedSettings_mem_pool pool r1 r2 r3 s hs,
      getRandomizedSettings_not_mem_rest pool r1 r2 r3 s hnd hs⟩
  · intro s q1 q2 q3 hs2 hs1
    exact getRandomizedSettings_not_mem_rest pool r1 r2 r3 s hnd hs1
      (getRandomizedSettings_mem_pool _ q1 q2 q3 s hs2)
  · intro tbl pc htbl
    simp only [getRandomizedSettingsCall, htbl]
  · exact List.Nodup.of_map Setting.settingid (by decide)
  · exact List.Nodup.of_map Setting.settingid (by decide)
  · exact List.Nodup.of_map Setting.settingid (by decide)

theorem randomized_settings_deplete_shared_pool_witness :
    (∀ (q : List Setting) (q1 q2 q3 : Nat),
        (getRandomizedSettings q q1 q2 q3).1.length = 3)
    ∧ (∀ o ∈ (getRandomizedSettings settingsPool4 0 0 0).1, o.isSome = true)
    ∧ (getRandomizedSettings settingsPool4 0 0 0).2.length
        = settingsPool4.length - 3
    ∧ (∀ s, some s ∈ (getRandomizedSettings settingsPool4 0 0 0).1 →
        s ∈ settingsPool4
        ∧ s ∉ (getRandomizedSettings settingsPool4 0 0 0).2)
    ∧ (∀ s q1 q2 q3,
        some s ∈ (getRandomizedSettings
            (getRandomizedSettings settingsPool4 0 0 0).2 q1 q2 q3).1 →
        some s ∉ (getRandomizedSettings settingsPool4 0 0 0).1)
    ∧ (∀ tbl pc, tbl pc = some settingsPool4 →
        getRandomizedSettingsCall tbl pc 0 0 0
          = (some (getRandomizedSettings settingsPool4 0 0 0).1,
             fun n => if n = pc
               then some (getRandomizedSettings settingsPool4 0 0 0).2
               else tbl n))
    ∧ settingsByPlayerCount 4 = some settingsPool4
    ∧ settingsByPlayerCount 5 = some settingsPool5
    ∧ settingsByPlayerCount 6 = some settingsPool6
    ∧ settingsByPlayerCount 7 = none
    ∧ settingsPool4.length = 7 ∧ settingsPool5.length = 9
    ∧ settingsPool6.length = 16
    ∧ settingsPool4.Nodup ∧ settingsPool5.Nodup ∧ settingsPool6.Nodup :=
  randomized_settings_deplete_shared_pool settingsPool4 0 0 0 (by decide)
    (by decide) (by decide)
    (List.Nodup.of_map Setting.settingid (by decide))

end Frogbot
